import Mathlib

/-!
Shallow embedding of the combat subsystem of `src/scenes/combat.rs`
(together with the data model of `src/combat.rs` and the combat-relevant
fields of `src/game_state.rs`).  `f32` values are modelled as rationals:
every operation the combat code performs on them (addition, subtraction,
absolute value, min/max/clamp, comparison, `% 40.0` on integer-valued
timers, and the truncating `as i32` cast) is exact on the rationals that
arise.  The random number generator is modelled as an injected oracle
record holding the values drawn during one frame, and the input snapshot
as a record of key flags.
-/

namespace Combat

/-- 2-D vector of rationals, modelling `tetra::math::Vec2<f32>`. -/
structure Vec2 where
  x : ℚ
  y : ℚ
deriving DecidableEq

/-- Componentwise addition, modelling `Vec2 + Vec2` (used by `pos += velocity`). -/
def Vec2.add (a b : Vec2) : Vec2 := ⟨a.x + b.x, a.y + b.y⟩

/-- `Vec2::zero()`. -/
def Vec2.zero : Vec2 := ⟨0, 0⟩

/-- `Bone` from `src/combat.rs`: a moving axis-aligned rectangle. -/
structure Bone where
  pos : Vec2
  size : Vec2
  velocity : Vec2
deriving DecidableEq

/-- `CombatTurn` from `src/combat.rs`. -/
inductive CombatTurn where
  | Menu
  | Fighting
  | Acting
  | Mercy
  | SansTurn
deriving DecidableEq

/-- `CombatData` from `src/combat.rs` (the dead-code fields `sans_hp`,
`sans_max_hp`, `sub_menu_selection` are never read by `update` and are
omitted). -/
structure CombatData where
  turn : CombatTurn
  menu_selection : Nat
  dialogue_text : String
  action_text : String
  timer : ℚ
  sans_shake : ℚ
  attack_bar_pos : ℚ
  attack_bar_speed : ℚ
  attack_bar_active : Bool
  heart_pos : Vec2
  heart_velocity : Vec2
  is_blue_mode : Bool
  can_jump : Bool
  bones : List Bone
deriving DecidableEq

/-- `CombatData::new()` from `src/combat.rs`. -/
def CombatData.new : CombatData where
  turn := CombatTurn.Menu
  menu_selection := 0
  dialogue_text := "You feel like you\x27re gonna have a bad time."
  action_text := ""
  timer := 0
  sans_shake := 0
  attack_bar_pos := 0
  attack_bar_speed := 8
  attack_bar_active := false
  heart_pos := ⟨400, 400⟩
  heart_velocity := Vec2.zero
  is_blue_mode := false
  can_jump := true
  bones := []

/-- The `Scene` enum lives in `src/defs.rs`, which is not among the given
sources; only the variants used around the combat scene are modelled from
its usage (`Scene::Combat` hosts combat, Mercy exits to `Scene::Desktop`). -/
inductive Scene where
  | Combat
  | Desktop
deriving DecidableEq

/-- The combat-relevant projection of `GameState` from `src/game_state.rs`
(fields read or written by `scenes::combat::update`). -/
structure GameState where
  scene : Scene
  fade_alpha : ℚ
  player_pos_x : ℚ
  player_pos_y : ℚ
  player_health : ℚ
  combat_data : CombatData
deriving DecidableEq

/-- The per-frame input snapshot consumed by `scenes::combat::update`:
edge-triggered (`is_key_pressed`) and level (`is_key_down`) key flags. -/
structure Input where
  leftPressed : Bool
  rightPressed : Bool
  upPressed : Bool
  leftDown : Bool
  rightDown : Bool
  downDown : Bool
  zPressed : Bool
  enterPressed : Bool
  fPressed : Bool
deriving DecidableEq

/-- The random draws one frame can make, modelled as an injected oracle:
`actIdx` for `gen_range(0..acts.len())`, `jokeIdx` for
`gen_range(0..jokes.len())` (taken modulo the pool length to reflect the
range contract of `gen_range`), `coin` for `gen_bool(0.5)`, `pattern` for
`gen_range(0..3)` (modulo 3 likewise), `gapY` for `gen_range(330.0..440.0)`. -/
structure Rng where
  actIdx : Nat
  jokeIdx : Nat
  coin : Bool
  pattern : Nat
  gapY : ℚ
deriving DecidableEq

/-- `Z || Enter || F`: the confirm test used in the Menu and Acting/Mercy arms. -/
def confirmMenuPressed (inp : Input) : Bool :=
  inp.zPressed || inp.enterPressed || inp.fPressed

/-- `Z || Enter`: the confirm test used in the Fighting arm. -/
def fightConfirmPressed (inp : Input) : Bool :=
  inp.zPressed || inp.enterPressed

/-- `f32::clamp(lo, hi)` on rationals (for `lo ≤ hi`). -/
def clampQ (v lo hi : ℚ) : ℚ := max lo (min v hi)

/-- Rust `%` on nonnegative floats: `x - y * trunc(x / y)`; on the
nonnegative timers it is applied to, truncation agrees with floor. -/
def fmod (x y : ℚ) : ℚ := x - y * (⌊x / y⌋ : ℤ)

/-- The truncating Rust cast `as i32` (toward zero); saturation is
irrelevant on the bounded values the combat code casts. -/
def f32ToI32 (q : ℚ) : ℤ := if 0 ≤ q then ⌊q⌋ else -⌊-q⌋

/-- The damage computation of the Fighting arm
(`src/scenes/combat.rs` lines 76-83), as a function of
`dist = |attack_bar_pos - 400.0|`. -/
def attackDamage (dist : ℚ) : ℤ :=
  if dist < 20 then 100
  else if dist < 100 then f32ToI32 (100 - dist)
  else 0

/-- The `acts` flavor-string pool of the Act action (lines 41-47). -/
def acts : List String :=
  [ "Check: Sans 1 ATK 1 DEF.\nThe easiest enemy. Can only deal 1 damage."
  , "You told a joke about a skeleton.\nSans smiled."
  , "You asked Sans to stop fighting.\nHe didn\x27t respond."
  , "You insulted Sans.\nHe just shrugged."
  , "You looked at Sans.\nHe\x27s still smiling." ]

/-- The `jokes` taunt pool (lines 99-110 and 126-137). -/
def jokes : List String :=
  [ "heh heh heh..."
  , "you\x27re gonna have a bad time."
  , "it\x27s a beautiful day outside."
  , "birds are singing, flowers are blooming..."
  , "on days like these, kids like you..."
  , "should be burning in hell."
  , "take it easy, kid."
  , "don\x27t you have anything better to do?"
  , "i\x27m rooting for ya, kid."
  , "geeeeeet dunked on!" ]

/-- Arrow navigation of the menu cursor (lines 20-29): left/right pressed,
with silent clamping to `[0, 3]`. -/
def menuNav (inp : Input) (sel : Nat) : Nat :=
  let sel := if inp.leftPressed && decide (sel > 0) then sel - 1 else sel
  if inp.rightPressed && decide (sel < 3) then sel + 1 else sel

/-- The `CombatTurn::Menu` arm (lines 19-63): arrow navigation, then
dispatch on confirm. -/
def updateMenu (inp : Input) (rng : Rng) (s : GameState) : GameState :=
  let cd := { s.combat_data with
                menu_selection := menuNav inp s.combat_data.menu_selection }
  if confirmMenuPressed inp then
    match cd.menu_selection with
    | 0 => { s with combat_data :=
        { cd with turn := CombatTurn.Fighting, timer := 0,
                  attack_bar_active := true, attack_bar_pos := 50,
                  action_text := "" } }
    | 1 => { s with combat_data :=
        { cd with turn := CombatTurn.Acting,
                  action_text := acts.getD (rng.actIdx % acts.length) "" } }
    | 2 => { s with
        combat_data :=
          { cd with
              turn := CombatTurn.Acting,
              action_text := "You ate the Legendary Hero.\nYou recovered 40 HP!" },
        player_health := min (s.player_health + 40) 100 }
    | 3 => { s with combat_data :=
        { cd with turn := CombatTurn.Mercy, action_text := "You spared Sans." } }
    | _ => { s with combat_data := cd }
  else { s with combat_data := cd }

/-- The `CombatTurn::Fighting` arm (lines 64-115). -/
def updateFighting (inp : Input) (rng : Rng) (s : GameState) : GameState :=
  let cd := s.combat_data
  if cd.attack_bar_active then
    let pos := cd.attack_bar_pos + cd.attack_bar_speed
    if pos > 750 then
      { s with combat_data :=
          { cd with attack_bar_pos := pos, attack_bar_active := false,
                    action_text := "MISS", timer := 0 } }
    else if fightConfirmPressed inp then
      let dist := |pos - 400|
      let damage := attackDamage dist
      if damage > 0 then
        { s with combat_data :=
            { cd with attack_bar_pos := pos, attack_bar_active := false,
                      action_text := toString damage ++ " DMG",
                      sans_shake := 10, timer := 0 } }
      else
        { s with combat_data :=
            { cd with attack_bar_pos := pos, attack_bar_active := false,
                      action_text := "MISS", timer := 0 } }
    else
      { s with combat_data := { cd with attack_bar_pos := pos } }
  else
    if fightConfirmPressed inp then
      { s with combat_data :=
          { cd with turn := CombatTurn.SansTurn, timer := 0,
                    dialogue_text := jokes.getD (rng.jokeIdx % jokes.length) "" } }
    else s

/-- The `CombatTurn::Acting | CombatTurn::Mercy` arm (lines 116-142). -/
def updateActingMercy (inp : Input) (rng : Rng) (s : GameState) : GameState :=
  if confirmMenuPressed inp then
    if s.combat_data.turn = CombatTurn.Mercy then
      { s with scene := Scene.Desktop, player_pos_x := 700 }
    else
      { s with combat_data :=
          { s.combat_data with
              turn := CombatTurn.SansTurn, timer := 0,
              dialogue_text := jokes.getD (rng.jokeIdx % jokes.length) "" } }
  else s

/-- SansTurn entry reset (lines 144-152): at `timer == 0`, recentre the
heart, zero its velocity, clear the bones and draw the attack mode. -/
def sansEntry (rng : Rng) (cd : CombatData) : CombatData :=
  if cd.timer = 0 then
    { cd with heart_pos := ⟨400, 395⟩, heart_velocity := Vec2.zero,
              bones := [], is_blue_mode := rng.coin }
  else cd

/-- `timer += 1.0` (line 153). -/
def sansTick (cd : CombatData) : CombatData := { cd with timer := cd.timer + 1 }

/-- Gravity, jump, fast fall, horizontal movement and velocity
integration (lines 155-177). -/
def sansKinetics (inp : Input) (cd0 : CombatData) : CombatData :=
  let cd := { cd0 with heart_velocity :=
    ⟨cd0.heart_velocity.x, cd0.heart_velocity.y + 0.9⟩ }
  let cd := if inp.upPressed && cd.can_jump then
      { cd with heart_velocity := ⟨cd.heart_velocity.x, -13⟩, can_jump := false }
    else cd
  let cd := if inp.downDown && !cd.can_jump then
      { cd with heart_velocity := ⟨cd.heart_velocity.x, cd.heart_velocity.y + 1.5⟩ }
    else cd
  let cd := if inp.leftDown then
      { cd with heart_pos := ⟨cd.heart_pos.x - 4, cd.heart_pos.y⟩ } else cd
  let cd := if inp.rightDown then
      { cd with heart_pos := ⟨cd.heart_pos.x + 4, cd.heart_pos.y⟩ } else cd
  { cd with heart_pos := Vec2.add cd.heart_pos cd.heart_velocity }

/-- Floor collision (lines 179-184). -/
def sansFloor (cd : CombatData) : CombatData :=
  if cd.heart_pos.y > 440 then
    { cd with heart_pos := ⟨cd.heart_pos.x, 440⟩,
              heart_velocity := ⟨cd.heart_velocity.x, 0⟩, can_jump := true }
  else cd

/-- Clamping the heart to the box (lines 186-188). -/
def sansClampBox (cd : CombatData) : CombatData :=
  { cd with heart_pos :=
      ⟨clampQ cd.heart_pos.x 55 735, clampQ cd.heart_pos.y 325 455⟩ }

/-- Heart physics (lines 155-188): kinetics, floor collision, box clamp. -/
def sansPhysics (inp : Input) (cd : CombatData) : CombatData :=
  sansClampBox (sansFloor (sansKinetics inp cd))

/-- One wave of the pattern generator (lines 194-245), as the list of
bones pushed, in push order. -/
def spawnBones (rng : Rng) (isBlue : Bool) : List Bone :=
  if isBlue then
    match rng.pattern % 3 with
    | 0 => [⟨⟨800, 420⟩, ⟨20, 50⟩, ⟨-6, 0⟩⟩]
    | 1 => [⟨⟨-50, 350⟩, ⟨20, 60⟩, ⟨6, 0⟩⟩]
    | _ => [⟨⟨800, 440⟩, ⟨20, 30⟩, ⟨-5, 0⟩⟩,
            ⟨⟨-50, 440⟩, ⟨20, 30⟩, ⟨5, 0⟩⟩]
  else
    let gapY := rng.gapY
    let gapSize : ℚ := 60
    [⟨⟨800, 320⟩, ⟨20, gapY - 320⟩, ⟨-5, 0⟩⟩,
     ⟨⟨800, gapY + gapSize⟩, ⟨20, 470 - (gapY + gapSize)⟩, ⟨-5, 0⟩⟩]

/-- Wave cadence (line 191): a wave is appended when `timer % 40.0 == 0.0`. -/
def sansSpawnStep (rng : Rng) (cd : CombatData) : CombatData :=
  if fmod cd.timer 40 = 0 then
    { cd with bones := cd.bones ++ spawnBones rng cd.is_blue_mode }
  else cd

/-- An axis-aligned rectangle, modelling `tetra::graphics::Rectangle<f32>`. -/
structure Rect where
  x : ℚ
  y : ℚ
  w : ℚ
  h : ℚ
deriving DecidableEq

/-- `Rectangle::intersects` from tetra: strict overlap on both axes. -/
def Rect.intersects (a b : Rect) : Bool :=
  decide (a.x < b.x + b.w) && decide (b.x < a.x + a.w) &&
  decide (a.y < b.y + b.h) && decide (b.y < a.y + a.h)

/-- The 10×10 heart hitbox anchored at the heart position (line 249). -/
def heartRect (p : Vec2) : Rect := ⟨p.x, p.y, 10, 10⟩

/-- A bone's rectangle (lines 259-264). -/
def boneRect (b : Bone) : Rect := ⟨b.pos.x, b.pos.y, b.size.x, b.size.y⟩

/-- `bones[i].pos += velocity` (lines 256-257). -/
def moveBone (b : Bone) : Bone := { b with pos := Vec2.add b.pos b.velocity }

/-- The removal test of line 271: keep the bone iff it is in bounds. -/
def boneInBounds (b : Bone) : Bool :=
  !(decide (b.pos.x < -50) || decide (b.pos.x > 850))

/-- The bone update/collision/removal loop (lines 254-276): every bone is
moved and collision-tested (accumulating the `hit` flag), then removed when
out of bounds.  Returns the surviving bones and the hit flag. -/
def stepBones (heart : Rect) : List Bone → List Bone × Bool
  | [] => ([], false)
  | b :: rest =>
    let b2 := moveBone b
    let hitHere := heart.intersects (boneRect b2)
    let r := stepBones heart rest
    ((if boneInBounds b2 then b2 :: r.1 else r.1), hitHere || r.2)

/-- Health after the hit flag is applied (lines 278-285): one fixed
decrement when the flag is set, then the floor at zero. -/
def healthAfterHit (hit : Bool) (h : ℚ) : ℚ :=
  let h2 := if hit then h - 1 else h
  if h2 ≤ 0 then 0 else h2

/-- Survival timeout (lines 287-292). -/
def sansTimeout (cd : CombatData) : CombatData :=
  if cd.timer > 400 then
    { cd with turn := CombatTurn.Menu,
              dialogue_text := "You feel your sins crawling on your back.",
              bones := [], is_blue_mode := false }
  else cd

/-- The combat-data part of the SansTurn arm up to and including spawning
(lines 143-246). -/
def sansCombined (inp : Input) (rng : Rng) (cd : CombatData) : CombatData :=
  sansSpawnStep rng (sansPhysics inp (sansTick (sansEntry rng cd)))

/-- The full `CombatTurn::SansTurn` arm (lines 143-293). -/
def updateSansTurn (inp : Input) (rng : Rng) (s : GameState) : GameState :=
  let cd := sansCombined inp rng s.combat_data
  let r := stepBones (heartRect cd.heart_pos) cd.bones
  { s with combat_data := sansTimeout { cd with bones := r.1 },
           player_health := healthAfterHit r.2 s.player_health }

/-- Fade-in decay (lines 14-16). -/
def fadeStep (s : GameState) : GameState :=
  if s.fade_alpha > 0 then { s with fade_alpha := s.fade_alpha - 0.02 } else s

/-- Shake decay (lines 296-298), run after the state dispatch. -/
def shakeStep (s : GameState) : GameState :=
  if s.combat_data.sans_shake > 0 then
    { s with combat_data :=
        { s.combat_data with sans_shake := s.combat_data.sans_shake - 0.5 } }
  else s

/-- One frame of `scenes::combat::update` (lines 13-301). -/
def update (inp : Input) (rng : Rng) (s0 : GameState) : GameState :=
  let s := fadeStep s0
  let s :=
    match s.combat_data.turn with
    | CombatTurn.Menu => updateMenu inp rng s
    | CombatTurn.Fighting => updateFighting inp rng s
    | CombatTurn.Acting => updateActingMercy inp rng s
    | CombatTurn.Mercy => updateActingMercy inp rng s
    | CombatTurn.SansTurn => updateSansTurn inp rng s
  shakeStep s

/-- The game state at the moment the surrounding game enters combat
(`src/game_state.rs` lines 842-848: `fade_alpha` has risen to 1, the scene
becomes `Combat` and `combat_data` is rebuilt by `CombatData::new()`);
`player_health` is carried over from outside, so it is a parameter. -/
def freshSession (h : ℚ) : GameState where
  scene := Scene.Combat
  fade_alpha := 1
  player_pos_x := 400
  player_pos_y := 300
  player_health := h
  combat_data := CombatData.new

/-- Folding `update` over a list of per-frame inputs and oracle draws. -/
def run (l : List (Input × Rng)) (s : GameState) : GameState :=
  l.foldl (fun st p => update p.1 p.2 st) s

end Combat

namespace Combat

/-! ### Concrete inputs, oracles and states used by witnesses and
counterexamples -/

/-- The all-false input snapshot. -/
def noInput : Input := ⟨false, false, false, false, false, false, false, false, false⟩

/-- A snapshot with only `Z` freshly pressed. -/
def zInput : Input := { noInput with zPressed := true }

/-- A fixed oracle. -/
def rng0 : Rng := ⟨0, 0, false, 0, 330⟩

/-- A Fighting state whose bar, after this frame's advance, lands at
distance `99.5` from the centre (`491.5 + 8 = 499.5`). -/
def nearMissState : GameState :=
  { freshSession 100 with
      combat_data :=
        { CombatData.new with
            turn := CombatTurn.Fighting, attack_bar_active := true,
            attack_bar_pos := 491.5, attack_bar_speed := 8 } }

/-- A Fighting state whose bar, after this frame's advance, lands at
distance `50` from the centre (`342 + 8 = 350`). -/
def midHitState : GameState :=
  { freshSession 100 with
      combat_data :=
        { CombatData.new with
            turn := CombatTurn.Fighting, attack_bar_active := true,
            attack_bar_pos := 342, attack_bar_speed := 8 } }

end Combat

namespace Combat

/-- A Menu state with the Item action selected and health 50. -/
def itemState : GameState :=
  { freshSession 50 with combat_data := { CombatData.new with menu_selection := 2 } }

/-- A bone sitting on the heart in the very next frame. -/
def hitBone : Bone := ⟨⟨395, 400⟩, ⟨20, 30⟩, ⟨-5, 0⟩⟩

/-- A mid-EnemyTurn state with one overlapping bone. -/
def hitState : GameState :=
  { freshSession 100 with
      combat_data :=
        { CombatData.new with
            turn := CombatTurn.SansTurn, timer := 5, bones := [hitBone] } }

/-- A SansTurn state on its entry frame (`timer = 0`), with junk to reset. -/
def entryState : GameState :=
  { freshSession 100 with
      combat_data :=
        { CombatData.new with
            turn := CombatTurn.SansTurn, timer := 0, bones := [hitBone],
            heart_pos := ⟨100, 350⟩, heart_velocity := ⟨2, 3⟩ } }

/-- A Fighting state whose bar overruns the far bound this frame. -/
def overrunState : GameState :=
  { freshSession 100 with
      combat_data :=
        { CombatData.new with
            turn := CombatTurn.Fighting, attack_bar_active := true,
            attack_bar_pos := 745, attack_bar_speed := 8 } }

/-- A SansTurn state whose timer reaches the survival threshold this frame. -/
def timeoutState : GameState :=
  { freshSession 100 with
      combat_data :=
        { CombatData.new with turn := CombatTurn.SansTurn, timer := 400 } }

/-! ### Structural helper lemmas: fields the wrapper steps leave alone -/

@[simp] lemma fadeStep_combat_data (s : GameState) :
    (fadeStep s).combat_data = s.combat_data := by
  unfold fadeStep; split <;> rfl

@[simp] lemma fadeStep_player_health (s : GameState) :
    (fadeStep s).player_health = s.player_health := by
  unfold fadeStep; split <;> rfl

@[simp] lemma shakeStep_player_health (s : GameState) :
    (shakeStep s).player_health = s.player_health := by
  unfold shakeStep; split <;> rfl

@[simp] lemma shakeStep_turn (s : GameState) :
    (shakeStep s).combat_data.turn = s.combat_data.turn := by
  unfold shakeStep; split <;> rfl

@[simp] lemma shakeStep_action_text (s : GameState) :
    (shakeStep s).combat_data.action_text = s.combat_data.action_text := by
  unfold shakeStep; split <;> rfl

@[simp] lemma shakeStep_attack_bar_active (s : GameState) :
    (shakeStep s).combat_data.attack_bar_active = s.combat_data.attack_bar_active := by
  unfold shakeStep; split <;> rfl

@[simp] lemma shakeStep_menu_selection (s : GameState) :
    (shakeStep s).combat_data.menu_selection = s.combat_data.menu_selection := by
  unfold shakeStep; split <;> rfl

@[simp] lemma shakeStep_bones (s : GameState) :
    (shakeStep s).combat_data.bones = s.combat_data.bones := by
  unfold shakeStep; split <;> rfl

@[simp] lemma shakeStep_dialogue_text (s : GameState) :
    (shakeStep s).combat_data.dialogue_text = s.combat_data.dialogue_text := by
  unfold shakeStep; split <;> rfl

@[simp] lemma shakeStep_is_blue_mode (s : GameState) :
    (shakeStep s).combat_data.is_blue_mode = s.combat_data.is_blue_mode := by
  unfold shakeStep; split <;> rfl

@[simp] lemma shakeStep_heart_pos (s : GameState) :
    (shakeStep s).combat_data.heart_pos = s.combat_data.heart_pos := by
  unfold shakeStep; split <;> rfl

@[simp] lemma shakeStep_timer (s : GameState) :
    (shakeStep s).combat_data.timer = s.combat_data.timer := by
  unfold shakeStep; split <;> rfl

/-! ### Dispatch lemmas: `update` in a known turn -/

lemma update_eq_menu (inp : Input) (rng : Rng) (s : GameState)
    (h : s.combat_data.turn = CombatTurn.Menu) :
    update inp rng s = shakeStep (updateMenu inp rng (fadeStep s)) := by
  have h2 : (fadeStep s).combat_data.turn = CombatTurn.Menu := by simp [h]
  simp only [update]
  rw [h2]

lemma update_eq_fighting (inp : Input) (rng : Rng) (s : GameState)
    (h : s.combat_data.turn = CombatTurn.Fighting) :
    update inp rng s = shakeStep (updateFighting inp rng (fadeStep s)) := by
  have h2 : (fadeStep s).combat_data.turn = CombatTurn.Fighting := by simp [h]
  simp only [update]
  rw [h2]

lemma update_eq_acting (inp : Input) (rng : Rng) (s : GameState)
    (h : s.combat_data.turn = CombatTurn.Acting) :
    update inp rng s = shakeStep (updateActingMercy inp rng (fadeStep s)) := by
  have h2 : (fadeStep s).combat_data.turn = CombatTurn.Acting := by simp [h]
  simp only [update]
  rw [h2]

lemma update_eq_mercy (inp : Input) (rng : Rng) (s : GameState)
    (h : s.combat_data.turn = CombatTurn.Mercy) :
    update inp rng s = shakeStep (updateActingMercy inp rng (fadeStep s)) := by
  have h2 : (fadeStep s).combat_data.turn = CombatTurn.Mercy := by simp [h]
  simp only [update]
  rw [h2]

lemma update_eq_sansTurn (inp : Input) (rng : Rng) (s : GameState)
    (h : s.combat_data.turn = CombatTurn.SansTurn) :
    update inp rng s = shakeStep (updateSansTurn inp rng (fadeStep s)) := by
  have h2 : (fadeStep s).combat_data.turn = CombatTurn.SansTurn := by simp [h]
  simp only [update]
  rw [h2]

end Combat

namespace Combat

/-! ### The SansTurn pipeline: fields each stage leaves alone -/

@[simp] lemma sansEntry_timer (rng : Rng) (cd : CombatData) :
    (sansEntry rng cd).timer = cd.timer := by
  unfold sansEntry; split <;> rfl

@[simp] lemma sansEntry_menu_selection (rng : Rng) (cd : CombatData) :
    (sansEntry rng cd).menu_selection = cd.menu_selection := by
  unfold sansEntry; split <;> rfl

@[simp] lemma sansTick_timer (cd : CombatData) :
    (sansTick cd).timer = cd.timer + 1 := rfl

@[simp] lemma sansTick_menu_selection (cd : CombatData) :
    (sansTick cd).menu_selection = cd.menu_selection := rfl

@[simp] lemma sansTick_bones (cd : CombatData) :
    (sansTick cd).bones = cd.bones := rfl

@[simp] lemma sansKinetics_timer (inp : Input) (cd : CombatData) :
    (sansKinetics inp cd).timer = cd.timer := by
  simp only [sansKinetics]
  repeat' split
  all_goals rfl

@[simp] lemma sansKinetics_menu_selection (inp : Input) (cd : CombatData) :
    (sansKinetics inp cd).menu_selection = cd.menu_selection := by
  simp only [sansKinetics]
  repeat' split
  all_goals rfl

@[simp] lemma sansKinetics_bones (inp : Input) (cd : CombatData) :
    (sansKinetics inp cd).bones = cd.bones := by
  simp only [sansKinetics]
  repeat' split
  all_goals rfl

@[simp] lemma sansKinetics_is_blue_mode (inp : Input) (cd : CombatData) :
    (sansKinetics inp cd).is_blue_mode = cd.is_blue_mode := by
  simp only [sansKinetics]
  repeat' split
  all_goals rfl

@[simp] lemma sansFloor_timer (cd : CombatData) :
    (sansFloor cd).timer = cd.timer := by
  unfold sansFloor; split <;> rfl

@[simp] lemma sansFloor_menu_selection (cd : CombatData) :
    (sansFloor cd).menu_selection = cd.menu_selection := by
  unfold sansFloor; split <;> rfl

@[simp] lemma sansFloor_bones (cd : CombatData) :
    (sansFloor cd).bones = cd.bones := by
  unfold sansFloor; split <;> rfl

@[simp] lemma sansFloor_is_blue_mode (cd : CombatData) :
    (sansFloor cd).is_blue_mode = cd.is_blue_mode := by
  unfold sansFloor; split <;> rfl

@[simp] lemma sansClampBox_timer (cd : CombatData) :
    (sansClampBox cd).timer = cd.timer := rfl

@[simp] lemma sansClampBox_menu_selection (cd : CombatData) :
    (sansClampBox cd).menu_selection = cd.menu_selection := rfl

@[simp] lemma sansClampBox_bones (cd : CombatData) :
    (sansClampBox cd).bones = cd.bones := rfl

@[simp] lemma sansClampBox_is_blue_mode (cd : CombatData) :
    (sansClampBox cd).is_blue_mode = cd.is_blue_mode := rfl

@[simp] lemma sansSpawnStep_timer (rng : Rng) (cd : CombatData) :
    (sansSpawnStep rng cd).timer = cd.timer := by
  unfold sansSpawnStep; split <;> rfl

@[simp] lemma sansSpawnStep_menu_selection (rng : Rng) (cd : CombatData) :
    (sansSpawnStep rng cd).menu_selection = cd.menu_selection := by
  unfold sansSpawnStep; split <;> rfl

@[simp] lemma sansSpawnStep_heart_pos (rng : Rng) (cd : CombatData) :
    (sansSpawnStep rng cd).heart_pos = cd.heart_pos := by
  unfold sansSpawnStep; split <;> rfl

@[simp] lemma sansTimeout_timer (cd : CombatData) :
    (sansTimeout cd).timer = cd.timer := by
  unfold sansTimeout; split <;> rfl

@[simp] lemma sansTimeout_menu_selection (cd : CombatData) :
    (sansTimeout cd).menu_selection = cd.menu_selection := by
  unfold sansTimeout; split <;> rfl

@[simp] lemma sansTimeout_heart_pos (cd : CombatData) :
    (sansTimeout cd).heart_pos = cd.heart_pos := by
  unfold sansTimeout; split <;> rfl

lemma sansCombined_timer (inp : Input) (rng : Rng) (cd : CombatData) :
    (sansCombined inp rng cd).timer = cd.timer + 1 := by
  simp [sansCombined, sansPhysics]

lemma sansCombined_menu_selection (inp : Input) (rng : Rng) (cd : CombatData) :
    (sansCombined inp rng cd).menu_selection = cd.menu_selection := by
  simp [sansCombined, sansPhysics]

lemma updateSansTurn_menu_selection (inp : Input) (rng : Rng) (s : GameState) :
    (updateSansTurn inp rng s).combat_data.menu_selection =
      s.combat_data.menu_selection := by
  simp only [updateSansTurn]
  simp [sansCombined_menu_selection]

/-! ### Menu-selection behaviour of each arm -/

lemma updateMenu_menu_selection (inp : Input) (rng : Rng) (s : GameState) :
    (updateMenu inp rng s).combat_data.menu_selection =
      menuNav inp s.combat_data.menu_selection := by
  simp only [updateMenu]
  split
  · split <;> simp_all
  · rfl

lemma updateFighting_menu_selection (inp : Input) (rng : Rng) (s : GameState) :
    (updateFighting inp rng s).combat_data.menu_selection =
      s.combat_data.menu_selection := by
  simp only [updateFighting]
  repeat' split
  all_goals rfl

lemma updateActingMercy_menu_selection (inp : Input) (rng : Rng) (s : GameState) :
    (updateActingMercy inp rng s).combat_data.menu_selection =
      s.combat_data.menu_selection := by
  simp only [updateActingMercy]
  repeat' split
  all_goals rfl

lemma menuNav_le (inp : Input) (sel : Nat) (h : sel ≤ 3) : menuNav inp sel ≤ 3 := by
  simp only [menuNav]
  repeat' split
  all_goals simp_all
  all_goals omega

lemma menuNav_left_at_zero (inp : Input) (hl : inp.leftPressed = true)
    (hr : inp.rightPressed = false) : menuNav inp 0 = 0 := by
  simp [menuNav, hl, hr]

lemma menuNav_right_at_three (inp : Input) (hr : inp.rightPressed = true) :
    menuNav inp 3 = 3 := by
  cases hl : inp.leftPressed <;> simp [menuNav, hl, hr]

/-- `update` never moves `menu_selection` except through `menuNav` in Menu. -/
lemma update_menu_selection_cases (inp : Input) (rng : Rng) (s : GameState) :
    (update inp rng s).combat_data.menu_selection =
      menuNav inp s.combat_data.menu_selection ∨
    (update inp rng s).combat_data.menu_selection =
      s.combat_data.menu_selection := by
  cases hturn : s.combat_data.turn
  · left
    rw [update_eq_menu inp rng s hturn]
    simp [updateMenu_menu_selection]
  · right
    rw [update_eq_fighting inp rng s hturn]
    simp [updateFighting_menu_selection]
  · right
    rw [update_eq_acting inp rng s hturn]
    simp [updateActingMercy_menu_selection]
  · right
    rw [update_eq_mercy inp rng s hturn]
    simp [updateActingMercy_menu_selection]
  · right
    rw [update_eq_sansTurn inp rng s hturn]
    simp [updateSansTurn_menu_selection]

lemma update_menu_selection_le (inp : Input) (rng : Rng) (s : GameState)
    (h : s.combat_data.menu_selection ≤ 3) :
    (update inp rng s).combat_data.menu_selection ≤ 3 := by
  rcases update_menu_selection_cases inp rng s with h2 | h2 <;> rw [h2]
  · exact menuNav_le inp _ h
  · exact h

lemma run_menu_selection_le (l : List (Input × Rng)) (s : GameState)
    (h : s.combat_data.menu_selection ≤ 3) :
    (run l s).combat_data.menu_selection ≤ 3 := by
  induction l generalizing s with
  | nil => exact h
  | cons p l ih => exact ih _ (update_menu_selection_le p.1 p.2 s h)

end Combat

namespace Combat

/-! ### Health behaviour of each arm -/

lemma updateFighting_player_health (inp : Input) (rng : Rng) (s : GameState) :
    (updateFighting inp rng s).player_health = s.player_health := by
  simp only [updateFighting]
  repeat' split
  all_goals rfl

lemma updateActingMercy_player_health (inp : Input) (rng : Rng) (s : GameState) :
    (updateActingMercy inp rng s).player_health = s.player_health := by
  simp only [updateActingMercy]
  repeat' split
  all_goals rfl

lemma updateMenu_player_health (inp : Input) (rng : Rng) (s : GameState) :
    (updateMenu inp rng s).player_health = s.player_health ∨
    (confirmMenuPressed inp = true ∧
      (updateMenu inp rng s).player_health = min (s.player_health + 40) 100) := by
  simp only [updateMenu]
  split
  · rename_i hc
    split
    · left; rfl
    · left; rfl
    · right; exact ⟨hc, rfl⟩
    · left; rfl
    · left; rfl
  · left; rfl

lemma healthAfterHit_le (hit : Bool) (h : ℚ) (hh : 0 ≤ h) :
    healthAfterHit hit h ≤ h := by
  simp only [healthAfterHit]
  cases hit <;> simp <;> split <;> linarith

lemma healthAfterHit_of_one_le (hit : Bool) (h : ℚ) (hh : 1 ≤ h) :
    healthAfterHit hit h = if hit then h - 1 else h := by
  simp only [healthAfterHit]
  cases hit <;> simp <;> intro h2 <;> linarith

lemma updateSansTurn_player_health (inp : Input) (rng : Rng) (s : GameState) :
    (updateSansTurn inp rng s).player_health =
      healthAfterHit
        (stepBones (heartRect (sansCombined inp rng s.combat_data).heart_pos)
          (sansCombined inp rng s.combat_data).bones).2
        s.player_health := rfl

/-! ### The bone loop -/

lemma stepBones_snd (heart : Rect) (bs : List Bone) :
    (stepBones heart bs).2 =
      bs.any (fun b => heart.intersects (boneRect (moveBone b))) := by
  induction bs with
  | nil => rfl
  | cons b rest ih => simp [stepBones, ih]

lemma stepBones_fst (heart : Rect) (bs : List Bone) :
    (stepBones heart bs).1 = (bs.map moveBone).filter boneInBounds := by
  induction bs with
  | nil => rfl
  | cons b rest ih => simp [stepBones, ih, List.filter_cons]

/-! ### Fighting arm: confirm resolution -/

lemma updateFighting_confirm (inp : Input) (rng : Rng) (s : GameState)
    (hact : s.combat_data.attack_bar_active = true)
    (hle : s.combat_data.attack_bar_pos + s.combat_data.attack_bar_speed ≤ 750)
    (hconf : fightConfirmPressed inp = true) :
    (updateFighting inp rng s).combat_data.action_text =
      (if 0 < attackDamage |s.combat_data.attack_bar_pos + s.combat_data.attack_bar_speed - 400|
       then toString (attackDamage |s.combat_data.attack_bar_pos + s.combat_data.attack_bar_speed - 400|) ++ " DMG"
       else "MISS")
    ∧ (updateFighting inp rng s).combat_data.attack_bar_active = false := by
  simp only [updateFighting, hact, if_true, hconf, if_neg (not_lt.mpr hle)]
  split <;> simp_all

/-! ### SansTurn arm: entry, heart position, timeout -/

lemma sansEntry_of_timer_zero (rng : Rng) (cd : CombatData) (h : cd.timer = 0) :
    sansEntry rng cd =
      { cd with heart_pos := ⟨400, 395⟩, heart_velocity := Vec2.zero,
                bones := [], is_blue_mode := rng.coin } := by
  unfold sansEntry
  rw [if_pos h]

lemma sansSpawnStep_bones_of_ne (rng : Rng) (cd : CombatData)
    (h : fmod cd.timer 40 ≠ 0) : (sansSpawnStep rng cd).bones = cd.bones := by
  unfold sansSpawnStep
  rw [if_neg h]

lemma sansTimeout_bones_nil (cd : CombatData) (h : cd.bones = []) :
    (sansTimeout cd).bones = [] := by
  unfold sansTimeout
  split
  · rfl
  · exact h

lemma sansPhysics_bones (inp : Input) (cd : CombatData) :
    (sansPhysics inp cd).bones = cd.bones := by
  simp [sansPhysics]

lemma sansPhysics_timer (inp : Input) (cd : CombatData) :
    (sansPhysics inp cd).timer = cd.timer := by
  simp [sansPhysics]

lemma sansFloor_y_le (cd : CombatData) : (sansFloor cd).heart_pos.y ≤ 440 := by
  unfold sansFloor
  split
  · norm_num
  · rename_i h
    exact le_of_not_lt h

lemma sansClampBox_heart_pos (cd : CombatData) :
    (sansClampBox cd).heart_pos =
      ⟨clampQ cd.heart_pos.x 55 735, clampQ cd.heart_pos.y 325 455⟩ := rfl

lemma updateSansTurn_heart_pos (inp : Input) (rng : Rng) (s : GameState) :
    (updateSansTurn inp rng s).combat_data.heart_pos =
      (sansCombined inp rng s.combat_data).heart_pos := by
  simp only [updateSansTurn]
  exact sansTimeout_heart_pos _

lemma sansTimeout_of_gt (cd : CombatData) (h : cd.timer > 400) :
    sansTimeout cd =
      { cd with turn := CombatTurn.Menu,
                dialogue_text := "You feel your sins crawling on your back.",
                bones := [], is_blue_mode := false } := by
  unfold sansTimeout
  rw [if_pos h]

end Combat

namespace Combat

/-! ### The claims -/

/-- Claim C1, counterexample: with the bar stopped at distance `99.5` from
the centre (position `491.5 + 8 = 499.5`), which lies in `[20, 100)`, the
code records "MISS", although the claimed formula `100 − distance` gives
the nonzero damage `0.5` and the claim reserves "MISS" for distance
`≥ 100` (the `as i32` truncation makes every distance in `(99, 100)` a
miss). -/
theorem attack_damage_truncation_cex :
    (20 : ℚ) ≤ |(491.5 : ℚ) + 8 - 400| ∧ |(491.5 : ℚ) + 8 - 400| < 100 ∧
    (100 : ℚ) - |(491.5 : ℚ) + 8 - 400| ≠ 0 ∧
    nearMissState.combat_data.attack_bar_pos = 491.5 ∧
    nearMissState.combat_data.attack_bar_speed = 8 ∧
    (update zInput rng0 nearMissState).combat_data.action_text = "MISS" := by
  refine ⟨by norm_num [abs_of_nonneg], by norm_num [abs_of_nonneg],
    by norm_num [abs_of_nonneg], rfl, rfl, ?_⟩
  norm_num [update, fadeStep, shakeStep, updateFighting, fightConfirmPressed,
    nearMissState, freshSession, CombatData.new, attackDamage, f32ToI32,
    zInput, noInput, abs_of_nonneg]

/-- Claim C1 (amended): on a confirm press while the attack bar is active
(and not past the far bound), the recorded text is `"{damage} DMG"` for a
positive damage and "MISS" otherwise, where damage is a pure function of
`dist = |attackBarPosition − 400|`: `100` when `dist < 20`, the `as i32`
truncation of `100 − dist` when `20 ≤ dist < 100` (so `20.0 ↦ 80`, and any
`dist > 99` truncates to `0`, recorded "MISS"), and `0` ("MISS") when
`dist ≥ 100`; the bar deactivates. -/
theorem attack_damage_resolution (inp : Input) (rng : Rng) (s : GameState)
    (pos dist : ℚ) (dmg : ℤ)
    (hpos : pos = s.combat_data.attack_bar_pos + s.combat_data.attack_bar_speed)
    (hdist : dist = |pos - 400|)
    (hdmg : dmg = attackDamage dist)
    (hturn : s.combat_data.turn = CombatTurn.Fighting)
    (hact : s.combat_data.attack_bar_active = true)
    (hle : pos ≤ 750)
    (hconf : fightConfirmPressed inp = true) :
    (update inp rng s).combat_data.action_text =
        (if 0 < dmg then toString dmg ++ " DMG" else "MISS")
    ∧ (update inp rng s).combat_data.attack_bar_active = false
    ∧ (dist < 20 → dmg = 100)
    ∧ (20 ≤ dist → dist < 100 → dmg = ⌊100 - dist⌋)
    ∧ (100 ≤ dist → dmg = 0) := by
  subst hpos hdist hdmg
  have h := updateFighting_confirm inp rng (fadeStep s)
    (by simpa using hact) (by simpa using hle) hconf
  rw [update_eq_fighting inp rng s hturn]
  refine ⟨?_, ?_, ?_, ?_, ?_⟩
  · simpa using h.1
  · simpa using h.2
  · intro hlt; simp [attackDamage, hlt]
  · intro hge hlt
    have h0 : (0:ℚ) ≤ 100 - |(s.combat_data.attack_bar_pos + s.combat_data.attack_bar_speed) - 400| := by
      linarith
    simp [attackDamage, not_lt.mpr hge, hlt, f32ToI32, h0]
  · intro hge
    simp [attackDamage, not_lt.mpr hge,
      not_lt.mpr (by linarith :
        (20:ℚ) ≤ |(s.combat_data.attack_bar_pos + s.combat_data.attack_bar_speed) - 400|)]

/-- Witness for C1: at bar position `342 + 8 = 350` (distance 50) with
confirm pressed, the recorded text is "50 DMG" and the bar deactivates. -/
theorem attack_damage_resolution_witness :
    (update zInput rng0 midHitState).combat_data.action_text = "50 DMG" ∧
    (update zInput rng0 midHitState).combat_data.attack_bar_active = false := by
  have h := attack_damage_resolution zInput rng0 midHitState 350 50 50
    (by norm_num [midHitState, freshSession, CombatData.new])
    (by norm_num)
    (by norm_num [attackDamage, f32ToI32])
    rfl rfl (by norm_num) rfl
  refine ⟨?_, h.2.1⟩
  rw [h.1]
  norm_num
  rfl

/-- Claim C2, counterexample: in the Menu state with the Item action
selected (selection 2) and health 50, a confirm press raises health to 90,
so a single-frame update of the combat subsystem can increase the external
player health. -/
theorem health_increase_item_cex :
    itemState.player_health = 50 ∧
    (update zInput rng0 itemState).player_health = 90 ∧
    ¬((update zInput rng0 itemState).player_health ≤ itemState.player_health) := by
  refine ⟨rfl, ?_, ?_⟩
  · norm_num [update, fadeStep, shakeStep, updateMenu, confirmMenuPressed, menuNav,
      itemState, freshSession, CombatData.new, zInput, noInput]
  · norm_num [update, fadeStep, shakeStep, updateMenu, confirmMenuPressed, menuNav,
      itemState, freshSession, CombatData.new, zInput, noInput]

/-- Claim C2 (amended): for every single-frame update from a nonnegative
health, the subsystem never increases the external player health, except
through the Item action (a confirm press in the Menu state), which sets it
to `min(health + 40, 100)`. -/
theorem health_monotone_except_item (inp : Input) (rng : Rng) (s : GameState)
    (hh : 0 ≤ s.player_health) :
    (update inp rng s).player_health ≤ s.player_health ∨
    (s.combat_data.turn = CombatTurn.Menu ∧ confirmMenuPressed inp = true ∧
      (update inp rng s).player_health = min (s.player_health + 40) 100) := by
  cases hturn : s.combat_data.turn
  · rw [update_eq_menu inp rng s hturn]
    rcases updateMenu_player_health inp rng (fadeStep s) with h2 | ⟨hc, h2⟩
    · left; simp [h2]
    · right; exact ⟨rfl, hc, by simp [h2]⟩
  · rw [update_eq_fighting inp rng s hturn]
    left; simp [updateFighting_player_health]
  · rw [update_eq_acting inp rng s hturn]
    left; simp [updateActingMercy_player_health]
  · rw [update_eq_mercy inp rng s hturn]
    left; simp [updateActingMercy_player_health]
  · rw [update_eq_sansTurn inp rng s hturn]
    left
    simp only [shakeStep_player_health, updateSansTurn_player_health,
      fadeStep_player_health, fadeStep_combat_data]
    exact healthAfterHit_le _ _ hh

/-- Witness for C2: a no-input frame from a fresh session at health 100. -/
theorem health_monotone_except_item_witness :
    (0 : ℚ) ≤ (freshSession 100).player_health ∧
    ((update noInput rng0 (freshSession 100)).player_health ≤
        (freshSession 100).player_health ∨
      ((freshSession 100).combat_data.turn = CombatTurn.Menu ∧
        confirmMenuPressed noInput = true ∧
        (update noInput rng0 (freshSession 100)).player_health =
          min ((freshSession 100).player_health + 40) 100)) :=
  ⟨by norm_num [freshSession],
    health_monotone_except_item noInput rng0 (freshSession 100)
      (by norm_num [freshSession])⟩

/-- Claim C3: from a fresh combat session, `menuSelection` stays in
`[0, 3]` after every frame of any input sequence (as a `usize` it is
nonnegative by type); a lone left press at selection 0 and a right press
at selection 3 leave it unchanged (silent clamping). -/
theorem menu_selection_bounds :
    (∀ (l : List (Input × Rng)) (h : ℚ),
        (run l (freshSession h)).combat_data.menu_selection ≤ 3)
    ∧ (∀ (inp : Input) (rng : Rng) (s : GameState),
        s.combat_data.menu_selection = 0 → inp.leftPressed = true →
        inp.rightPressed = false →
        (update inp rng s).combat_data.menu_selection = 0)
    ∧ (∀ (inp : Input) (rng : Rng) (s : GameState),
        s.combat_data.menu_selection = 3 → inp.rightPressed = true →
        (update inp rng s).combat_data.menu_selection = 3) := by
  refine ⟨fun l h =>
    run_menu_selection_le l _ (by simp [freshSession, CombatData.new]), ?_, ?_⟩
  · intro inp rng s h0 hl hr
    rcases update_menu_selection_cases inp rng s with h2 | h2 <;> rw [h2, h0]
    · exact menuNav_left_at_zero inp hl hr
  · intro inp rng s h3 hr
    rcases update_menu_selection_cases inp rng s with h2 | h2 <;> rw [h2, h3]
    · exact menuNav_right_at_three inp hr

/-- Witness for C3: one confirm frame from a fresh session; a left press
at selection 0; a right press at selection 3. -/
theorem menu_selection_bounds_witness :
    (run [(zInput, rng0)] (freshSession 100)).combat_data.menu_selection ≤ 3
    ∧ (update { noInput with leftPressed := true } rng0
        (freshSession 100)).combat_data.menu_selection = 0
    ∧ (update { noInput with rightPressed := true } rng0
        { freshSession 100 with combat_data :=
            { CombatData.new with menu_selection := 3 } }).combat_data.menu_selection = 3 :=
  ⟨menu_selection_bounds.1 [(zInput, rng0)] 100,
    menu_selection_bounds.2.1 _ rng0 _ rfl rfl rfl,
    menu_selection_bounds.2.2 _ rng0 _ rfl rfl⟩

/-- Claim C4: on an EnemyTurn frame from health `≥ 1`, the external player
health drops by exactly the fixed per-hit amount 1 if at least one updated
projectile rectangle intersects the 10×10 avatar hitbox, and is unchanged
otherwise — one flag-based decrement per frame, independent of how many
projectiles overlap. -/
theorem enemy_turn_single_decrement (inp : Input) (rng : Rng) (s : GameState)
    (cd : CombatData)
    (hcd : cd = sansCombined inp rng s.combat_data)
    (hturn : s.combat_data.turn = CombatTurn.SansTurn)
    (hh : 1 ≤ s.player_health) :
    (update inp rng s).player_health =
      (if cd.bones.any
            (fun b => (heartRect cd.heart_pos).intersects (boneRect (moveBone b)))
       then s.player_health - 1 else s.player_health) := by
  subst hcd
  rw [update_eq_sansTurn inp rng s hturn]
  simp only [shakeStep_player_health, updateSansTurn_player_health,
    fadeStep_player_health, fadeStep_combat_data]
  rw [healthAfterHit_of_one_le _ _ hh, stepBones_snd]

/-- Witness for C4: a SansTurn frame with one overlapping bone takes
health from 100 to 99. -/
theorem enemy_turn_single_decrement_witness :
    (1 : ℚ) ≤ hitState.player_health ∧
    (update noInput rng0 hitState).player_health = 99 := by
  refine ⟨by norm_num [hitState, freshSession], ?_⟩
  rw [enemy_turn_single_decrement noInput rng0 hitState _ rfl rfl
    (by norm_num [hitState, freshSession])]
  norm_num [sansCombined, sansEntry, sansTick, sansPhysics, sansKinetics,
    sansFloor, sansClampBox, sansSpawnStep, fmod, clampQ, hitState, freshSession,
    CombatData.new, hitBone, spawnBones, moveBone, heartRect, boneRect,
    Rect.intersects, Vec2.add, Vec2.zero, noInput]

/-- Claim C5: at the end of every EnemyTurn frame, for every input and
prior avatar state, the avatar's vertical position is at most the floor
line 440 and its position lies within the clamped arena rectangle
`[55, 735] × [325, 455]`. -/
theorem avatar_position_bounds (inp : Input) (rng : Rng) (s : GameState)
    (hturn : s.combat_data.turn = CombatTurn.SansTurn) :
    55 ≤ (update inp rng s).combat_data.heart_pos.x ∧
    (update inp rng s).combat_data.heart_pos.x ≤ 735 ∧
    325 ≤ (update inp rng s).combat_data.heart_pos.y ∧
    (update inp rng s).combat_data.heart_pos.y ≤ 440 ∧
    (update inp rng s).combat_data.heart_pos.y ≤ 455 := by
  rw [update_eq_sansTurn inp rng s hturn]
  simp only [shakeStep_heart_pos, updateSansTurn_heart_pos, sansCombined,
    sansSpawnStep_heart_pos, sansPhysics, sansClampBox_heart_pos]
  refine ⟨le_max_left _ _,
    max_le (by norm_num) (le_trans (min_le_right _ _) (by norm_num)),
    le_max_left _ _,
    max_le (by norm_num) (le_trans (min_le_left _ _) (sansFloor_y_le _)),
    max_le (by norm_num) (le_trans (min_le_right _ _) (by norm_num))⟩

/-- Witness for C5: a concrete mid-EnemyTurn frame lands inside the box
and below the floor line. -/
theorem avatar_position_bounds_witness :
    hitState.combat_data.turn = CombatTurn.SansTurn ∧
    55 ≤ (update noInput rng0 hitState).combat_data.heart_pos.x ∧
    (update noInput rng0 hitState).combat_data.heart_pos.x ≤ 735 ∧
    325 ≤ (update noInput rng0 hitState).combat_data.heart_pos.y ∧
    (update noInput rng0 hitState).combat_data.heart_pos.y ≤ 440 :=
  ⟨rfl, (avatar_position_bounds noInput rng0 hitState rfl).1,
    (avatar_position_bounds noInput rng0 hitState rfl).2.1,
    (avatar_position_bounds noInput rng0 hitState rfl).2.2.1,
    (avatar_position_bounds noInput rng0 hitState rfl).2.2.2.1⟩

/-- Claim C6: on entry into EnemyTurn (`timer = 0`), the entry reset
empties the projectile list, puts the avatar at the spawn point
`(400, 395)` with zero velocity, and sets the mode flag to the drawn
Boolean (`gen_bool(0.5)`, modelled as the oracle's coin); the projectile
list is still empty at the end of that first frame. -/
theorem enemy_turn_entry_reset (inp : Input) (rng : Rng) (s : GameState)
    (hturn : s.combat_data.turn = CombatTurn.SansTurn)
    (h0 : s.combat_data.timer = 0) :
    (sansEntry rng s.combat_data).bones = [] ∧
    (sansEntry rng s.combat_data).heart_pos = ⟨400, 395⟩ ∧
    (sansEntry rng s.combat_data).heart_velocity = Vec2.zero ∧
    (sansEntry rng s.combat_data).is_blue_mode = rng.coin ∧
    (update inp rng s).combat_data.bones = [] := by
  rw [sansEntry_of_timer_zero rng s.combat_data h0]
  refine ⟨rfl, rfl, rfl, rfl, ?_⟩
  rw [update_eq_sansTurn inp rng s hturn]
  simp only [shakeStep_bones, updateSansTurn]
  apply sansTimeout_bones_nil
  have hb : (sansCombined inp rng (fadeStep s).combat_data).bones = [] := by
    simp only [sansCombined]
    rw [sansSpawnStep_bones_of_ne]
    · rw [sansPhysics_bones, sansTick_bones]
      rw [fadeStep_combat_data, sansEntry_of_timer_zero rng s.combat_data h0]
    · rw [sansPhysics_timer, sansTick_timer, sansEntry_timer,
        fadeStep_combat_data, h0]
      norm_num [fmod]
  simp only [stepBones_fst, hb]
  rfl

/-- Witness for C6: an entry frame with stale bones, an off-centre avatar
and nonzero velocity is fully reset. -/
theorem enemy_turn_entry_reset_witness :
    (sansEntry rng0 entryState.combat_data).bones = [] ∧
    (sansEntry rng0 entryState.combat_data).heart_pos = ⟨400, 395⟩ ∧
    (sansEntry rng0 entryState.combat_data).heart_velocity = Vec2.zero ∧
    (sansEntry rng0 entryState.combat_data).is_blue_mode = rng0.coin ∧
    (update noInput rng0 entryState).combat_data.bones = [] :=
  enemy_turn_entry_reset noInput rng0 entryState rfl rfl

/-- Claim C7: in Fighting with the bar active, when the advanced bar
position exceeds 750 and no confirm is pressed, the bar deactivates, the
result resolves to "MISS" and the timer resets, without requiring input. -/
theorem attack_bar_auto_miss (inp : Input) (rng : Rng) (s : GameState)
    (hturn : s.combat_data.turn = CombatTurn.Fighting)
    (hact : s.combat_data.attack_bar_active = true)
    (hover : s.combat_data.attack_bar_pos + s.combat_data.attack_bar_speed > 750)
    (hnoconf : fightConfirmPressed inp = false) :
    (update inp rng s).combat_data.attack_bar_active = false ∧
    (update inp rng s).combat_data.action_text = "MISS" ∧
    (update inp rng s).combat_data.timer = 0 := by
  rw [update_eq_fighting inp rng s hturn]
  simp only [shakeStep_attack_bar_active, shakeStep_action_text, shakeStep_timer]
  simp only [updateFighting, fadeStep_combat_data, hact, if_true, if_pos hover]
  simp

/-- Witness for C7: a bar at 745 with speed 8 (`753 > 750`) auto-misses
with no input pressed. -/
theorem attack_bar_auto_miss_witness :
    (update noInput rng0 overrunState).combat_data.attack_bar_active = false ∧
    (update noInput rng0 overrunState).combat_data.action_text = "MISS" ∧
    (update noInput rng0 overrunState).combat_data.timer = 0 :=
  attack_bar_auto_miss noInput rng0 overrunState rfl rfl
    (by norm_num [overrunState, freshSession, CombatData.new]) rfl

/-- Claim C8: on an EnemyTurn frame whose advanced timer exceeds the
survival threshold 400, the state machine returns to Menu, the projectile
list is cleared, the mode flag is reset and the closing dialogue line is
set. -/
theorem survival_timeout_to_menu (inp : Input) (rng : Rng) (s : GameState)
    (hturn : s.combat_data.turn = CombatTurn.SansTurn)
    (ht : s.combat_data.timer + 1 > 400) :
    (update inp rng s).combat_data.turn = CombatTurn.Menu ∧
    (update inp rng s).combat_data.bones = [] ∧
    (update inp rng s).combat_data.is_blue_mode = false ∧
    (update inp rng s).combat_data.dialogue_text =
      "You feel your sins crawling on your back." := by
  rw [update_eq_sansTurn inp rng s hturn]
  simp only [shakeStep_turn, shakeStep_bones, shakeStep_is_blue_mode,
    shakeStep_dialogue_text, updateSansTurn]
  rw [sansTimeout_of_gt]
  · exact ⟨rfl, rfl, rfl, rfl⟩
  · show (sansCombined inp rng (fadeStep s).combat_data).timer > 400
    rw [sansCombined_timer, fadeStep_combat_data]
    exact ht

/-- Witness for C8: a SansTurn frame at timer 400 returns to Menu with the
arena cleared. -/
theorem survival_timeout_to_menu_witness :
    (update noInput rng0 timeoutState).combat_data.turn = CombatTurn.Menu ∧
    (update noInput rng0 timeoutState).combat_data.bones = [] ∧
    (update noInput rng0 timeoutState).combat_data.is_blue_mode = false ∧
    (update noInput rng0 timeoutState).combat_data.dialogue_text =
      "You feel your sins crawling on your back." :=
  survival_timeout_to_menu noInput rng0 timeoutState rfl
    (by norm_num [timeoutState, freshSession, CombatData.new])

/-- Claim C9: every evasive-mode ("red") wave spawns exactly two
projectiles at the right edge (`x = 800`) travelling leftward
(velocity `(-5, 0)`), and the top segment's height plus the fixed gap 60
plus the bottom segment's height equals the arena's vertical span
`470 − 320`. -/
theorem red_wave_gap_structure (rng : Rng) :
    ∃ top bot : Bone, spawnBones rng false = [top, bot] ∧
      top.pos.x = 800 ∧ bot.pos.x = 800 ∧
      top.velocity = ⟨-5, 0⟩ ∧ bot.velocity = ⟨-5, 0⟩ ∧
      top.velocity.x < 0 ∧ bot.velocity.x < 0 ∧
      top.size.y + 60 + bot.size.y = 470 - 320 := by
  refine ⟨_, _, rfl, rfl, rfl, rfl, rfl, by norm_num, by norm_num, ?_⟩
  show (rng.gapY - 320) + 60 + (470 - (rng.gapY + 60)) = 470 - 320
  ring

/-- Claim C10: every projectile the pattern generator spawns has zero
vertical velocity; the per-frame bone update keeps exactly the moved
in-bounds bones, and moving a zero-vertical-velocity bone leaves its
vertical position, size and velocity unchanged while shifting its
horizontal position by exactly its horizontal velocity. -/
theorem bone_frame_effect :
    (∀ (rng : Rng) (mode : Bool) (b : Bone),
        b ∈ spawnBones rng mode → b.velocity.y = 0)
    ∧ (∀ (heart : Rect) (bs : List Bone),
        (stepBones heart bs).1 = (bs.map moveBone).filter boneInBounds)
    ∧ (∀ b : Bone, b.velocity.y = 0 →
        (moveBone b).pos.y = b.pos.y ∧ (moveBone b).size = b.size ∧
        (moveBone b).velocity = b.velocity ∧
        (moveBone b).pos.x = b.pos.x + b.velocity.x) := by
  refine ⟨?_, stepBones_fst, ?_⟩
  · intro rng mode b hb
    cases mode
    · simp only [spawnBones, Bool.false_eq_true, if_false, List.mem_cons,
        List.mem_singleton, List.not_mem_nil, or_false] at hb
      rcases hb with rfl | rfl
      · rfl
      · rfl
    · simp only [spawnBones, if_true] at hb
      split at hb <;> simp only [List.mem_cons, List.mem_singleton] at hb
      · rcases hb with rfl | h
        · rfl
        · simp at h
      · rcases hb with rfl | h
        · rfl
        · simp at h
      · rcases hb with rfl | rfl | h
        · rfl
        · rfl
        · simp at h
  · intro b hb
    refine ⟨?_, rfl, rfl, rfl⟩
    simp [moveBone, Vec2.add, hb]

/-- Witness for C10: the low blue-mode bone has zero vertical velocity and
its update moves it only horizontally. -/
theorem bone_frame_effect_witness :
    (Bone.mk ⟨800, 420⟩ ⟨20, 50⟩ ⟨-6, 0⟩).velocity.y = 0 ∧
    (stepBones (heartRect ⟨400, 400⟩) [Bone.mk ⟨800, 420⟩ ⟨20, 50⟩ ⟨-6, 0⟩]).1 =
      (([Bone.mk ⟨800, 420⟩ ⟨20, 50⟩ ⟨-6, 0⟩]).map moveBone).filter boneInBounds ∧
    (moveBone (Bone.mk ⟨800, 420⟩ ⟨20, 50⟩ ⟨-6, 0⟩)).pos.y =
      (Bone.mk ⟨800, 420⟩ ⟨20, 50⟩ ⟨-6, 0⟩).pos.y := by
  have h := bone_frame_effect
  have hmem : (Bone.mk ⟨800, 420⟩ ⟨20, 50⟩ ⟨-6, 0⟩) ∈ spawnBones rng0 true := by
    simp [spawnBones, rng0]
  exact ⟨h.1 rng0 true _ hmem, h.2.1 _ _, (h.2.2 _ (h.1 rng0 true _ hmem)).1⟩

end Combat
